import Mathlib

/-!
Verification of the service-marketplace core: provider discovery
(`src/app/(tabs)/index.tsx`, `src/app/(tabs)/map.tsx`), conversation
management (`src/services/chat.ts`) and the notification feed
(`NotificationButton` component).  Each TypeScript function is shallowly
embedded as an executable Lean definition; JavaScript truthiness of the
`||` defaulting idiom is modelled explicitly (absent value or falsy
zero / empty string selects the default).
-/

namespace Servico

/-- JS `x || d` for an optional number: `undefined` and `0` are falsy. -/
def jsNumOr (x : Option ℚ) (d : ℚ) : ℚ :=
  match x with
  | none => d
  | some v => if v = 0 then d else v

/-- JS `x || d` for an optional natural number: `undefined` and `0` are falsy. -/
def jsNatOr (x : Option ℕ) (d : ℕ) : ℕ :=
  match x with
  | none => d
  | some v => if v = 0 then d else v

/-- JS `x || d` for an optional string: `undefined` and `""` are falsy. -/
def jsStrOr (x : Option String) (d : String) : String :=
  match x with
  | none => d
  | some s => if s = "" then d else s

/-- JS `x || null` for an optional string. -/
def jsStrOrNull (x : Option String) : Option String :=
  match x with
  | none => none
  | some s => if s = "" then none else some s

/-- JS truthiness test of an optional number (`undefined` and `0` are falsy). -/
def jsNumFalsy (x : Option ℚ) : Bool :=
  match x with
  | none => true
  | some v => v == 0

/-- `listPre n h`: the character list `n` is an initial segment of `h`. -/
def listPre : List Char → List Char → Bool
  | [], _ => true
  | _ :: _, [] => false
  | a :: as, b :: bs => a == b && listPre as bs

/-- `listSub n h`: the character list `n` occurs contiguously inside `h`
(the semantics of JS `String.prototype.includes`). -/
def listSub (needle : List Char) : List Char → Bool
  | [] => needle.isEmpty
  | b :: bs => listPre needle (b :: bs) || listSub needle bs

/-- JS `hay.includes(needle)` on strings. -/
def containsSub (hay needle : String) : Bool :=
  listSub needle.data hay.data

/-- JS `s.toLowerCase()`: lower-case every character (stated over the
character list so that it evaluates by kernel reduction). -/
def lowerStr (s : String) : String :=
  ⟨s.data.map Char.toLower⟩

/-- A geographic coordinate, from the `{latitude, longitude}` pairs of the code. -/
structure Coord where
  latitude : ℚ
  longitude : ℚ
deriving DecidableEq

/-- A raw `users` document as read from the store in `loadProviders`.
Fields the document may lack are `Option`; the three required strings use
`""` for both the absent and the empty (falsy) case, which the code never
distinguishes. -/
structure RawUser where
  uid : String
  displayName : String
  serviceType : String
  neighborhood : String
  photoURL : Option String
  rating : Option ℚ
  reviewCount : Option ℕ
  status : Option String
  latitude : Option ℚ
  longitude : Option ℚ
deriving DecidableEq

/-- The in-memory `Provider` value built by `loadProviders`. -/
structure Provider where
  uid : String
  displayName : String
  serviceType : String
  neighborhood : String
  photoURL : Option String
  rating : ℚ
  reviewCount : ℕ
  status : String
  latitude : ℚ
  longitude : ℚ
  distance : Option ℚ
deriving DecidableEq

/-- The `(a.distance || 0)` comparison key of the distance sort and of the
radius filter. -/
def distVal (p : Provider) : ℚ :=
  jsNumOr p.distance 0

/-- Ascending comparison on `(distance || 0)` used by
`providersData.sort((a, b) => (a.distance || 0) - (b.distance || 0))`. -/
def distLe (a b : Provider) : Prop :=
  distVal a ≤ distVal b

instance : DecidableRel distLe := fun a b =>
  inferInstanceAs (Decidable (distVal a ≤ distVal b))

/-- The provider record built from one raw document in the home screen's
`loadProviders` (`index.tsx`): missing (or falsy) coordinates fall back to
the defaults `-22.9068` / `-43.1729`, and the distance is computed exactly
when the user location is known. `dist` abstracts `calculateDistance`. -/
def mkHomeProvider (dist : Coord → Coord → ℚ) (userLocation : Option Coord)
    (data : RawUser) : Provider :=
  let lat := jsNumOr data.latitude (-22.9068)
  let lng := jsNumOr data.longitude (-43.1729)
  { uid := data.uid
    displayName := data.displayName
    serviceType := data.serviceType
    neighborhood := data.neighborhood
    photoURL := jsStrOrNull data.photoURL
    rating := jsNumOr data.rating 0
    reviewCount := jsNatOr data.reviewCount 0
    status := jsStrOr data.status "disponivel"
    latitude := lat
    longitude := lng
    distance := userLocation.map fun loc =>
      dist ⟨loc.latitude, loc.longitude⟩ ⟨lat, lng⟩ }

/-- `loadProviders` of the home screen (`index.tsx`): drop documents with a
missing required field, build providers (defaulting coordinates), and sort
ascending by `(distance || 0)`. -/
def loadProvidersHome (dist : Coord → Coord → ℚ) (userLocation : Option Coord)
    (docs : List RawUser) : List Provider :=
  let providersData :=
    (docs.filter fun d =>
      !(d.displayName == "" || d.serviceType == "" || d.neighborhood == "")).map
      (mkHomeProvider dist userLocation)
  providersData.insertionSort distLe

/-- `loadProviders` of the map screen (`map.tsx`): skip documents missing a
required field or either coordinate (JS falsiness, so a literal `0`
coordinate is also skipped); when the user location is known, compute the
distance and keep the record only when it is within the search radius. -/
def loadProvidersMap (dist : Coord → Coord → ℚ) (userLocation : Option Coord)
    (searchRadius : ℚ) (docs : List RawUser) : List Provider :=
  let step : RawUser → List Provider := fun data =>
    if data.displayName == "" || data.serviceType == "" || data.neighborhood == ""
        || jsNumFalsy data.latitude || jsNumFalsy data.longitude then
      []
    else
      let lat := jsNumOr data.latitude 0
      let lng := jsNumOr data.longitude 0
      let base : Provider :=
        { uid := data.uid
          displayName := data.displayName
          serviceType := data.serviceType
          neighborhood := data.neighborhood
          photoURL := jsStrOrNull data.photoURL
          rating := jsNumOr data.rating 0
          reviewCount := jsNatOr data.reviewCount 0
          status := jsStrOr data.status "disponivel"
          latitude := lat
          longitude := lng
          distance := none }
      match userLocation with
      | some loc =>
        let d := dist ⟨loc.latitude, loc.longitude⟩ ⟨lat, lng⟩
        if d ≤ searchRadius then [{ base with distance := some d }] else []
      | none => [base]
  (docs.flatMap step).insertionSort distLe

/-- `filterProviders` of the home screen (`index.tsx`): service filter
(case-insensitive substring on `serviceType`), neighborhood filter (exact),
free-text filter (case-insensitive substring on `displayName` or
`serviceType`), each skipped when the filter string is empty, then — only
when the user location is known — the radius filter on `(distance || 0)`. -/
def filterProviders (selectedService selectedNeighborhood searchText : String)
    (userLocation : Option Coord) (searchRadius : ℚ)
    (providers : List Provider) : List Provider :=
  let f1 :=
    if selectedService ≠ "" then
      providers.filter fun p =>
        containsSub (lowerStr p.serviceType) (lowerStr selectedService)
    else providers
  let f2 :=
    if selectedNeighborhood ≠ "" then
      f1.filter fun p => p.neighborhood == selectedNeighborhood
    else f1
  let f3 :=
    if searchText ≠ "" then
      f2.filter fun p =>
        containsSub (lowerStr p.displayName) (lowerStr searchText)
          || containsSub (lowerStr p.serviceType) (lowerStr searchText)
    else f2
  match userLocation with
  | some _ => f3.filter fun p => decide (distVal p ≤ searchRadius)
  | none => f3

/-- From the `(v || 0) ≤ r` comparison the code makes, the underlying value
is itself at most `r`. -/
lemma le_of_jsNumOr_le {v r : ℚ} (h : jsNumOr (some v) 0 ≤ r) : v ≤ r := by
  by_cases hv : v = 0
  · subst hv
    simpa [jsNumOr] using h
  · simpa [jsNumOr, hv] using h

/-- Every provider returned by `filterProviders` comes from the input list. -/
lemma filterProviders_subset (svc neigh txt : String) (uloc : Option Coord)
    (r : ℚ) (ps : List Provider) (p : Provider)
    (hp : p ∈ filterProviders svc neigh txt uloc r ps) : p ∈ ps := by
  have step : ∀ (q : Provider → Bool) (l : List Provider) (c : Prop)
      (inst : Decidable c), p ∈ (if c then l.filter q else l) → p ∈ l := by
    intro q l c inst h
    split at h
    · exact (List.mem_filter.mp h).1
    · exact h
  unfold filterProviders at hp
  cases uloc with
  | none => exact step _ _ _ _ (step _ _ _ _ (step _ _ _ _ hp))
  | some loc =>
      exact step _ _ _ _ (step _ _ _ _ (step _ _ _ _ (List.mem_filter.mp hp).1))

/-- Membership characterization of the home screen `loadProviders`. -/
lemma mem_loadProvidersHome (dist : Coord → Coord → ℚ) (uloc : Option Coord)
    (docs : List RawUser) (p : Provider) :
    p ∈ loadProvidersHome dist uloc docs ↔
      ∃ data ∈ docs,
        ¬(data.displayName == "" || data.serviceType == "" || data.neighborhood == "") = true
        ∧ p = mkHomeProvider dist uloc data := by
  unfold loadProvidersHome
  rw [List.mem_insertionSort]
  simp only [List.mem_map, List.mem_filter]
  constructor
  · rintro ⟨data, ⟨hmem, hcond⟩, rfl⟩
    exact ⟨data, hmem, by simpa using hcond, rfl⟩
  · rintro ⟨data, hmem, hcond, rfl⟩
    exact ⟨data, ⟨hmem, by simpa using hcond⟩, rfl⟩

/-- C3: with a known origin and radius `r`, every provider in the filtered
home-screen result and every provider in the map-screen result carries a
computed distance, and that distance is at most `r`. -/
theorem discovery_radius_bound (dist : Coord → Coord → ℚ) (loc : Coord) (r : ℚ)
    (svc neigh txt : String) (docs : List RawUser) (p : Provider) :
    (p ∈ filterProviders svc neigh txt (some loc) r
        (loadProvidersHome dist (some loc) docs) →
      ∃ d, p.distance = some d ∧ d ≤ r)
    ∧ (p ∈ loadProvidersMap dist (some loc) r docs →
      ∃ d, p.distance = some d ∧ d ≤ r) := by
  constructor
  · intro hp
    have hradius : distVal p ≤ r := by
      unfold filterProviders at hp
      have := (List.mem_filter.mp hp).2
      exact of_decide_eq_true this
    have hsrc : p ∈ loadProvidersHome dist (some loc) docs :=
      filterProviders_subset _ _ _ _ _ _ _ hp
    obtain ⟨data, -, -, rfl⟩ := (mem_loadProvidersHome _ _ _ _).mp hsrc
    have hradius' : jsNumOr (some (dist ⟨loc.latitude, loc.longitude⟩
        ⟨jsNumOr data.latitude (-22.9068), jsNumOr data.longitude (-43.1729)⟩)) 0
        ≤ r := hradius
    exact ⟨_, rfl, le_of_jsNumOr_le hradius'⟩
  · intro hp
    unfold loadProvidersMap at hp
    rw [List.mem_insertionSort] at hp
    obtain ⟨data, -, hstep⟩ := List.mem_flatMap.mp hp
    by_cases hskip : data.displayName == "" || data.serviceType == ""
        || data.neighborhood == "" || jsNumFalsy data.latitude
        || jsNumFalsy data.longitude
    · simp [hskip] at hstep
    · simp only [hskip, if_false, Bool.false_eq_true] at hstep
      set d := dist ⟨loc.latitude, loc.longitude⟩
        ⟨jsNumOr data.latitude 0, jsNumOr data.longitude 0⟩ with hd
      by_cases hle : d ≤ r
      · simp only [← hd, hle, if_true] at hstep
        rw [List.mem_singleton] at hstep
        subst hstep
        exact ⟨d, rfl, hle⟩
      · simp [← hd, hle] at hstep

/-- C3 witness: a concrete provider document within radius 5 of a concrete
origin is returned by both pipelines with its distance bounded by 5. -/
theorem discovery_radius_bound_witness :
    ∃ d, (mkHomeProvider (fun _ _ => 3) (some ⟨1, 2⟩)
        { uid := "u1", displayName := "Ana", serviceType := "Encanador",
          neighborhood := "Centro", photoURL := none, rating := none,
          reviewCount := none, status := none,
          latitude := some 1, longitude := some 2 }).distance = some d ∧ d ≤ 5 :=
  (discovery_radius_bound (fun _ _ => 3) ⟨1, 2⟩ 5 "" "" ""
    [{ uid := "u1", displayName := "Ana", serviceType := "Encanador",
       neighborhood := "Centro", photoURL := none, rating := none,
       reviewCount := none, status := none,
       latitude := some 1, longitude := some 2 }]
    (mkHomeProvider (fun _ _ => 3) (some ⟨1, 2⟩)
      { uid := "u1", displayName := "Ana", serviceType := "Encanador",
        neighborhood := "Centro", photoURL := none, rating := none,
        reviewCount := none, status := none,
        latitude := some 1, longitude := some 2 })).1 (by decide)

/-- Monotone transfer into the `(v || 0)` comparison key. -/
lemma jsNumOr_le_of_le {v r : ℚ} (h : v ≤ r) : jsNumOr (some v) 0 ≤ r := by
  by_cases hv : v = 0
  · subst hv
    simpa [jsNumOr] using h
  · simpa [jsNumOr, hv] using h

/-- A distance function agreeing with the spec's haversine on the only
property used here: the distance from a point to itself is `0` (and it is
nonnegative and symmetric). -/
def discreteDist (a b : Coord) : ℚ :=
  if a = b then 0 else 1

/-- The default coordinate `(-22.9068, -43.1729)` hard-coded in the home
screen's `loadProviders`. -/
def defaultOrigin : Coord :=
  ⟨-22.9068, -43.1729⟩

/-- A provider document with all required profile fields but no stored
coordinate. -/
def rawNoCoord : RawUser :=
  { uid := "p1", displayName := "Maria", serviceType := "Encanador",
    neighborhood := "Centro", photoURL := none, rating := none,
    reviewCount := none, status := none, latitude := none, longitude := none }

/-- C6 counterexample: on the home screen, a provider document with no
stored coordinate is NOT excluded when radius filtering is active and the
origin is known.  With the origin at the hard-coded default coordinate, the
document's missing coordinate is silently replaced by that same default, its
computed distance is `0`, and it is returned as within radius 5. -/
theorem homeMissingCoordReturned_counterexample :
    rawNoCoord.latitude = none ∧ rawNoCoord.longitude = none
    ∧ filterProviders "" "" "" (some defaultOrigin) 5
        (loadProvidersHome discreteDist (some defaultOrigin) [rawNoCoord])
        = [mkHomeProvider discreteDist (some defaultOrigin) rawNoCoord]
    ∧ (mkHomeProvider discreteDist (some defaultOrigin) rawNoCoord).distance
        = some 0 := by
  refine ⟨rfl, rfl, ?_, ?_⟩
  · norm_num [filterProviders, loadProvidersHome, mkHomeProvider, rawNoCoord,
      defaultOrigin, discreteDist, jsNumOr, jsStrOr, jsStrOrNull, jsNatOr,
      distVal, List.insertionSort, List.orderedInsert]
  · norm_num [mkHomeProvider, rawNoCoord, defaultOrigin, discreteDist, jsNumOr]

/-- C6 amended: on the map screen every returned provider originates from a
document carrying both coordinates (a missing or zero coordinate is always
skipped); on the home screen a document with missing coordinates is instead
assigned the default coordinate `(-22.9068, -43.1729)`, its distance is
computed from that default, and it is returned whenever that distance is
within the radius. -/
theorem missingCoord_discovery_amended (dist : Coord → Coord → ℚ)
    (uloc : Option Coord) (loc : Coord) (r : ℚ) (docs : List RawUser)
    (p : Provider) (data : RawUser) :
    (p ∈ loadProvidersMap dist uloc r docs →
      ∃ d ∈ docs, jsNumFalsy d.latitude = false ∧ jsNumFalsy d.longitude = false
        ∧ p.uid = d.uid)
    ∧ (data ∈ docs → data.displayName ≠ "" → data.serviceType ≠ "" →
        data.neighborhood ≠ "" → data.latitude = none → data.longitude = none →
        mkHomeProvider dist (some loc) data ∈ loadProvidersHome dist (some loc) docs
        ∧ (mkHomeProvider dist (some loc) data).latitude = -22.9068
        ∧ (mkHomeProvider dist (some loc) data).longitude = -43.1729
        ∧ (mkHomeProvider dist (some loc) data).distance
            = some (dist ⟨loc.latitude, loc.longitude⟩ ⟨-22.9068, -43.1729⟩)
        ∧ (dist ⟨loc.latitude, loc.longitude⟩ ⟨-22.9068, -43.1729⟩ ≤ r →
            mkHomeProvider dist (some loc) data ∈ filterProviders "" "" ""
              (some loc) r (loadProvidersHome dist (some loc) docs))) := by
  constructor
  · intro hp
    unfold loadProvidersMap at hp
    rw [List.mem_insertionSort] at hp
    obtain ⟨d, hd, hstep⟩ := List.mem_flatMap.mp hp
    by_cases hskip : d.displayName == "" || d.serviceType == ""
        || d.neighborhood == "" || jsNumFalsy d.latitude
        || jsNumFalsy d.longitude
    · simp [hskip] at hstep
    · refine ⟨d, hd, ?_, ?_, ?_⟩
      · simp only [Bool.or_eq_true, not_or] at hskip
        simpa using hskip.1.2
      · simp only [Bool.or_eq_true, not_or] at hskip
        simpa using hskip.2
      · simp only [hskip, if_false, Bool.false_eq_true] at hstep
        cases uloc with
        | none =>
            rw [List.mem_singleton] at hstep
            subst hstep
            rfl
        | some o =>
            by_cases hle : dist ⟨o.latitude, o.longitude⟩
                ⟨jsNumOr d.latitude 0, jsNumOr d.longitude 0⟩ ≤ r
            · simp only [hle, if_true] at hstep
              rw [List.mem_singleton] at hstep
              subst hstep
              rfl
            · simp [hle] at hstep
  · intro hmem h1 h2 h3 hlat hlng
    have hcond : ¬(data.displayName == "" || data.serviceType == ""
        || data.neighborhood == "") = true := by
      simp [h1, h2, h3]
    have hin : mkHomeProvider dist (some loc) data ∈
        loadProvidersHome dist (some loc) docs :=
      (mem_loadProvidersHome _ _ _ _).mpr ⟨data, hmem, hcond, rfl⟩
    have hdistance : (mkHomeProvider dist (some loc) data).distance
        = some (dist ⟨loc.latitude, loc.longitude⟩ ⟨-22.9068, -43.1729⟩) := by
      simp [mkHomeProvider, hlat, hlng, jsNumOr]
    refine ⟨hin, by simp [mkHomeProvider, hlat, jsNumOr],
      by simp [mkHomeProvider, hlng, jsNumOr], hdistance, ?_⟩
    intro hle
    unfold filterProviders
    simp only [ne_eq, not_true_eq_false, if_false, reduceIte]
    rw [List.mem_filter]
    refine ⟨hin, decide_eq_true ?_⟩
    have : distVal (mkHomeProvider dist (some loc) data)
        = jsNumOr (some (dist ⟨loc.latitude, loc.longitude⟩
            ⟨-22.9068, -43.1729⟩)) 0 := by
      rw [distVal, hdistance]
    rw [this]
    exact jsNumOr_le_of_le hle

/-- C6 amended witness: the concrete coordinate-free document is returned by
the home pipeline located at the default coordinate. -/
theorem missingCoord_discovery_amended_witness :
    (mkHomeProvider discreteDist (some defaultOrigin) rawNoCoord).distance
      = some (discreteDist ⟨defaultOrigin.latitude, defaultOrigin.longitude⟩
          ⟨-22.9068, -43.1729⟩) :=
  ((missingCoord_discovery_amended discreteDist (some defaultOrigin)
      defaultOrigin 5 [rawNoCoord]
      (mkHomeProvider discreteDist (some defaultOrigin) rawNoCoord)
      rawNoCoord).2
    (List.mem_singleton.mpr rfl) (by decide) (by decide) (by decide)
    rfl rfl).2.2.2.1

/-- A provider whose service type is `"Encanador"`, for the filter example. -/
def provEncanador : Provider :=
  { uid := "e1", displayName := "Joao", serviceType := "Encanador",
    neighborhood := "Centro", photoURL := none, rating := 0, reviewCount := 0,
    status := "disponivel", latitude := 0, longitude := 0, distance := none }

/-- A provider whose service type is `"Eletricista"`, for the filter example. -/
def provEletricista : Provider :=
  { uid := "e2", displayName := "Pedro", serviceType := "Eletricista",
    neighborhood := "Centro", photoURL := none, rating := 0, reviewCount := 0,
    status := "disponivel", latitude := 0, longitude := 0, distance := none }

/-- C7: `filterProviders` applies the service filter as a case-insensitive
substring match on `serviceType`, the neighborhood filter as an exact match,
the free-text filter as a case-insensitive substring match on `displayName`
or `serviceType`, and the radius filter exactly when the location is known;
each text filter is a no-op when its string is empty and the filters compose
by conjunction.  The service filter `"encanador"` keeps the `"Encanador"`
provider and drops the `"Eletricista"` one. -/
theorem filterProviders_semantics :
    (∀ (svc neigh txt : String) (uloc : Option Coord) (r : ℚ)
        (ps : List Provider) (p : Provider),
      p ∈ filterProviders svc neigh txt uloc r ps ↔
        p ∈ ps
        ∧ (svc = "" ∨ containsSub (lowerStr p.serviceType) (lowerStr svc) = true)
        ∧ (neigh = "" ∨ p.neighborhood = neigh)
        ∧ (txt = "" ∨ containsSub (lowerStr p.displayName) (lowerStr txt) = true
            ∨ containsSub (lowerStr p.serviceType) (lowerStr txt) = true)
        ∧ (∀ loc, uloc = some loc → distVal p ≤ r))
    ∧ filterProviders "encanador" "" "" none 5 [provEncanador, provEletricista]
        = [provEncanador] := by
  constructor
  · intro svc neigh txt uloc r ps p
    unfold filterProviders
    cases uloc with
    | none =>
        by_cases h1 : svc = "" <;> by_cases h2 : neigh = "" <;>
          by_cases h3 : txt = "" <;>
          simp [h1, h2, h3, List.mem_filter, and_assoc] <;> tauto
    | some loc =>
        by_cases h1 : svc = "" <;> by_cases h2 : neigh = "" <;>
          by_cases h3 : txt = "" <;>
          simp [h1, h2, h3, List.mem_filter, and_assoc] <;> tauto
  · decide

/-- C7 witness: the `"Encanador"` provider passes the `"encanador"` service
filter. -/
theorem filterProviders_semantics_witness :
    provEncanador ∈ filterProviders "encanador" "" "" none 5
      [provEncanador, provEletricista] := by
  rw [filterProviders_semantics.2]
  exact List.mem_singleton.mpr rfl

/-- A `chats/{chatId}` document: participant ids, the id-to-name map, and
the denormalized last-message cache.  `lastMessageTime` is optional because
the notification handler tests it for JS truthiness. -/
structure ChatDoc where
  docId : String
  participants : List String
  participantNames : List (String × String)
  lastMessage : String
  lastMessageTime : Option ℕ
  createdAt : ℕ
deriving DecidableEq

/-- A `chats/{chatId}/messages/{messageId}` document.  `seq` is the server
insertion sequence number, which also generates the document id. -/
structure MsgDoc where
  docId : String
  chatId : String
  senderId : String
  senderName : String
  text : String
  timestamp : ℕ
  seq : ℕ
deriving DecidableEq

/-- The document store visible to `src/services/chat.ts`: the `chats`
collection, the message subcollections of every chat, and the counter the
store draws generated ids and insertion sequence numbers from. -/
structure Store where
  chats : List ChatDoc
  messages : List MsgDoc
  nextId : ℕ
deriving DecidableEq

/-- The `querySnapshot.forEach` scan of `createOrGetChat`: overwrite
`existingChatId` with the id of every result whose `participants` include
`otherUserId`, so the last such result wins. -/
def scanChats (otherUserId : String) (docs : List ChatDoc) : Option String :=
  docs.foldl
    (fun acc d => if otherUserId ∈ d.participants then some d.docId else acc)
    none

/-- `createOrGetChat` of `src/services/chat.ts`: query the chats whose
`participants` array contains the current user, scan them for one also
containing the other user and return its id if found; otherwise create a
chat with both participants, both names, an empty `lastMessage` and
`createdAt = lastMessageTime = now`, returning the generated id. -/
def createOrGetChat (s : Store)
    (currentUserId otherUserId currentUserName otherUserName : String)
    (now : ℕ) : String × Store :=
  let qres := s.chats.filter fun d => decide (currentUserId ∈ d.participants)
  match scanChats otherUserId qres with
  | some cid => (cid, s)
  | none =>
    let newDoc : ChatDoc :=
      { docId := toString s.nextId
        participants := [currentUserId, otherUserId]
        participantNames :=
          [(currentUserId, currentUserName), (otherUserId, otherUserName)]
        lastMessage := ""
        lastMessageTime := some now
        createdAt := now }
    (newDoc.docId, { s with chats := s.chats ++ [newDoc], nextId := s.nextId + 1 })

/-- `sendMessage` of `src/services/chat.ts` issues two separate store
writes: `addDoc` of the message, then `updateDoc` of the parent chat's
`lastMessage`/`lastMessageTime`.  Each write may fail (`failAdd`,
`failUpd`); a failure propagates as a thrown error (`false` result) and
leaves every later write unexecuted.  `tMsg` and `tChat` are the two
separate `Timestamp.now()` calls. -/
def sendMessage (s : Store) (chatId senderId senderName text : String)
    (tMsg tChat : ℕ) (failAdd failUpd : Bool) : Store × Bool :=
  if failAdd then (s, false)
  else
    let m : MsgDoc :=
      { docId := toString s.nextId, chatId := chatId, senderId := senderId,
        senderName := senderName, text := text, timestamp := tMsg,
        seq := s.nextId }
    let s1 := { s with messages := s.messages ++ [m], nextId := s.nextId + 1 }
    if failUpd then (s1, false)
    else
      let s2 := { s1 with chats := s1.chats.map fun c =>
        if c.docId = chatId then
          { c with lastMessage := text, lastMessageTime := some tChat }
        else c }
      (s2, true)

/-- The delivery order of the `orderBy('timestamp', 'asc')` message query:
ascending timestamp, ties broken by the server insertion sequence. -/
def msgLe (a b : MsgDoc) : Prop :=
  a.timestamp < b.timestamp ∨ (a.timestamp = b.timestamp ∧ a.seq ≤ b.seq)

instance : DecidableRel msgLe := fun a b =>
  inferInstanceAs (Decidable (_ ∨ _))

instance : IsTotal MsgDoc msgLe :=
  ⟨by intro a b; unfold msgLe; omega⟩

instance : IsTrans MsgDoc msgLe :=
  ⟨by intro a b c hab hbc; unfold msgLe at hab hbc ⊢; omega⟩

/-- The message list delivered to the `getChatMessages` snapshot callback:
the chat's messages ordered by the `orderBy('timestamp', 'asc')` query. -/
def getChatMessages (chatId : String) (s : Store) : List MsgDoc :=
  (s.messages.filter fun m => m.chatId == chatId).insertionSort msgLe

/-- Scanning a snapshot with one more document at the end: the new document
wins whenever it matches. -/
lemma scanChats_append (other : String) (docs : List ChatDoc) (d : ChatDoc) :
    scanChats other (docs ++ [d]) =
      if other ∈ d.participants then some d.docId else scanChats other docs := by
  simp [scanChats, List.foldl_append]

/-- The forEach scan with the roles of the two participants exchanged,
generalized over the accumulator. -/
lemma scanChats_aux (a b : String) (l : List ChatDoc) :
    ∀ acc : Option String,
      (l.filter fun d => decide (a ∈ d.participants)).foldl
        (fun acc d => if b ∈ d.participants then some d.docId else acc) acc
      = (l.filter fun d => decide (b ∈ d.participants)).foldl
        (fun acc d => if a ∈ d.participants then some d.docId else acc) acc := by
  induction l with
  | nil => intro acc; rfl
  | cons d t ih =>
      intro acc
      by_cases ha : a ∈ d.participants <;> by_cases hb : b ∈ d.participants <;>
        simp [List.filter_cons, ha, hb, ih]

/-- The lookup scan is symmetric in the unordered participant pair. -/
lemma scanChats_filter_comm (a b : String) (l : List ChatDoc) :
    scanChats b (l.filter fun d => decide (a ∈ d.participants))
      = scanChats a (l.filter fun d => decide (b ∈ d.participants)) :=
  scanChats_aux a b l none

/-- C1: for distinct users `a` and `b`, a second sequential
`createOrGetChat` call — with the arguments in either order — returns the
id produced by the first call and leaves the store exactly as the first
call left it (it finds the existing conversation instead of creating one). -/
theorem createOrGetChat_idempotent (s : Store) (a b na nb na2 nb2 : String)
    (t1 t2 : ℕ) (hab : a ≠ b) :
    ((createOrGetChat (createOrGetChat s a b na nb t1).2 b a nb2 na2 t2).1
        = (createOrGetChat s a b na nb t1).1
      ∧ (createOrGetChat (createOrGetChat s a b na nb t1).2 b a nb2 na2 t2).2
        = (createOrGetChat s a b na nb t1).2)
    ∧ ((createOrGetChat (createOrGetChat s a b na nb t1).2 a b na2 nb2 t2).1
        = (createOrGetChat s a b na nb t1).1
      ∧ (createOrGetChat (createOrGetChat s a b na nb t1).2 a b na2 nb2 t2).2
        = (createOrGetChat s a b na nb t1).2) := by
  cases hscan : scanChats b (s.chats.filter fun d => decide (a ∈ d.participants)) with
  | some cid =>
      have h1 : createOrGetChat s a b na nb t1 = (cid, s) := by
        simp only [createOrGetChat, hscan]
      have hscan2 : scanChats a (s.chats.filter fun d => decide (b ∈ d.participants))
          = some cid := (scanChats_filter_comm a b s.chats).symm.trans hscan
      have h2 : createOrGetChat s b a nb2 na2 t2 = (cid, s) := by
        simp only [createOrGetChat, hscan2]
      have h3 : createOrGetChat s a b na2 nb2 t2 = (cid, s) := by
        simp only [createOrGetChat, hscan]
      rw [h1]
      exact ⟨⟨by rw [h2], by rw [h2]⟩, ⟨by rw [h3], by rw [h3]⟩⟩
  | none =>
      have h1 : createOrGetChat s a b na nb t1 =
          (toString s.nextId,
            { s with
              chats := s.chats ++
                [{ docId := toString s.nextId
                   participants := [a, b]
                   participantNames := [(a, na), (b, nb)]
                   lastMessage := ""
                   lastMessageTime := some t1
                   createdAt := t1 }]
              nextId := s.nextId + 1 }) := by
        simp only [createOrGetChat, hscan]
      rw [h1]
      have hfb : ∀ (names : List (String × String)),
          (List.filter (fun d => decide (b ∈ d.participants))
              (s.chats ++
                [{ docId := toString s.nextId, participants := [a, b],
                   participantNames := names, lastMessage := "",
                   lastMessageTime := some t1, createdAt := t1 }]))
            = (s.chats.filter fun d => decide (b ∈ d.participants)) ++
                [{ docId := toString s.nextId, participants := [a, b],
                   participantNames := names, lastMessage := "",
                   lastMessageTime := some t1, createdAt := t1 }] := by
        intro names
        simp [List.filter_append]
      have hfa : ∀ (names : List (String × String)),
          (List.filter (fun d => decide (a ∈ d.participants))
              (s.chats ++
                [{ docId := toString s.nextId, participants := [a, b],
                   participantNames := names, lastMessage := "",
                   lastMessageTime := some t1, createdAt := t1 }]))
            = (s.chats.filter fun d => decide (a ∈ d.participants)) ++
                [{ docId := toString s.nextId, participants := [a, b],
                   participantNames := names, lastMessage := "",
                   lastMessageTime := some t1, createdAt := t1 }] := by
        intro names
        simp [List.filter_append]
      constructor
      · have hscanB : scanChats a
            (List.filter (fun d => decide (b ∈ d.participants))
              (s.chats ++
                [{ docId := toString s.nextId, participants := [a, b],
                   participantNames := [(a, na), (b, nb)], lastMessage := "",
                   lastMessageTime := some t1, createdAt := t1 }]))
            = some (toString s.nextId) := by
          rw [hfb, scanChats_append]
          simp
        constructor <;> simp only [createOrGetChat, hscanB]
      · have hscanA : scanChats b
            (List.filter (fun d => decide (a ∈ d.participants))
              (s.chats ++
                [{ docId := toString s.nextId, participants := [a, b],
                   participantNames := [(a, na), (b, nb)], lastMessage := "",
                   lastMessageTime := some t1, createdAt := t1 }]))
            = some (toString s.nextId) := by
          rw [hfa, scanChats_append]
          simp
        constructor <;> simp only [createOrGetChat, hscanA]

/-- C1 witness: the concrete two-call run on an empty store returns the
generated id `"0"` twice. -/
theorem createOrGetChat_idempotent_witness :
    (createOrGetChat (createOrGetChat ⟨[], [], 0⟩ "u" "v" "U" "V" 1).2
        "v" "u" "V" "U" 2).1
      = (createOrGetChat ⟨[], [], 0⟩ "u" "v" "U" "V" 1).1 :=
  (createOrGetChat_idempotent ⟨[], [], 0⟩ "u" "v" "U" "V" "U" "V" 1 2
    (by decide)).1.1

/-- A conversation document between `"u"` and `"v"` on which no message has
been sent yet. -/
def chat0 : ChatDoc :=
  { docId := "c1", participants := ["u", "v"],
    participantNames := [("u", "U"), ("v", "V")],
    lastMessage := "", lastMessageTime := some 0, createdAt := 0 }

/-- C4 counterexample: `sendMessage` is two separate writes, not an atomic
one.  When the `addDoc` of the message succeeds and the following
`updateDoc` of the parent chat fails, the outcome has the message `"oi"`
appended while the parent conversation's `lastMessage` is still `""` — the
outcome the claim says cannot happen. -/
theorem sendMessage_appendWithoutUpdate_counterexample :
    ((sendMessage ⟨[chat0], [], 5⟩ "c1" "u" "U" "oi" 7 8 false true).1.messages.map
        fun m => m.text) = ["oi"]
    ∧ ((sendMessage ⟨[chat0], [], 5⟩ "c1" "u" "U" "oi" 7 8 false true).1.chats.map
        fun c => c.lastMessage) = [""]
    ∧ (sendMessage ⟨[chat0], [], 5⟩ "c1" "u" "U" "oi" 7 8 false true).2 = false := by
  decide

/-- C4 amended: `sendMessage` appends the message and then, in a separate
write, sets the parent conversation's `lastMessage` to the message's text
and `lastMessageTime` to a fresh timestamp.  When both writes succeed the
parent's fields reflect the new message; when the parent update fails after
the append succeeded, the message remains appended and the parent's fields
are unchanged; when the append itself fails, the store is unchanged. -/
theorem sendMessage_amended (s : Store) (cid sid sname txt : String)
    (tMsg tChat : ℕ) (fu : Bool) :
    (sendMessage s cid sid sname txt tMsg tChat false false).2 = true
    ∧ (sendMessage s cid sid sname txt tMsg tChat false false).1.messages
        = s.messages ++
          [{ docId := toString s.nextId, chatId := cid, senderId := sid,
             senderName := sname, text := txt, timestamp := tMsg,
             seq := s.nextId }]
    ∧ (sendMessage s cid sid sname txt tMsg tChat false false).1.chats
        = s.chats.map (fun c =>
            if c.docId = cid then
              { c with lastMessage := txt, lastMessageTime := some tChat }
            else c)
    ∧ (sendMessage s cid sid sname txt tMsg tChat false true).1.messages
        = s.messages ++
          [{ docId := toString s.nextId, chatId := cid, senderId := sid,
             senderName := sname, text := txt, timestamp := tMsg,
             seq := s.nextId }]
    ∧ (sendMessage s cid sid sname txt tMsg tChat false true).1.chats = s.chats
    ∧ (sendMessage s cid sid sname txt tMsg tChat true fu).1 = s :=
  ⟨rfl, rfl, rfl, rfl, rfl, rfl⟩

/-- Timestamp-monotonicity projection of the delivery order. -/
lemma msgLe_timestamp {a b : MsgDoc} (h : msgLe a b) :
    a.timestamp ≤ b.timestamp := by
  unfold msgLe at h
  omega

/-- C5: every delivered message list is a permutation of the chat's full
message set, sorted by the `(timestamp, insertion)` delivery order — so
timestamps are non-decreasing along it — and after sending `"a"` then
`"b"` on the same conversation (message timestamps non-decreasing, as
produced by sequential `Timestamp.now()` calls) the delivered list contains
the `"a"` message strictly before the `"b"` message. -/
theorem getChatMessages_ordered (s : Store) (cid sidA snA sidB snB : String)
    (t1 tc1 t2 tc2 : ℕ) (hmono : t1 ≤ t2) :
    (∀ (cid' : String) (s' : Store),
      List.Perm (getChatMessages cid' s')
          (s'.messages.filter fun m => m.chatId == cid')
        ∧ List.Sorted msgLe (getChatMessages cid' s')
        ∧ List.Sorted (fun m1 m2 => m1.timestamp ≤ m2.timestamp)
            (getChatMessages cid' s'))
    ∧ (∃ i j : ℕ, i < j
        ∧ (getChatMessages cid
            (sendMessage (sendMessage s cid sidA snA "a" t1 tc1 false false).1
              cid sidB snB "b" t2 tc2 false false).1)[i]?
          = some { docId := toString s.nextId, chatId := cid, senderId := sidA,
                   senderName := snA, text := "a", timestamp := t1,
                   seq := s.nextId }
        ∧ (getChatMessages cid
            (sendMessage (sendMessage s cid sidA snA "a" t1 tc1 false false).1
              cid sidB snB "b" t2 tc2 false false).1)[j]?
          = some { docId := toString (s.nextId + 1), chatId := cid,
                   senderId := sidB, senderName := snB, text := "b",
                   timestamp := t2, seq := s.nextId + 1 }) := by
  have hgen : ∀ (cid' : String) (s' : Store),
      List.Perm (getChatMessages cid' s')
          (s'.messages.filter fun m => m.chatId == cid')
        ∧ List.Sorted msgLe (getChatMessages cid' s')
        ∧ List.Sorted (fun m1 m2 => m1.timestamp ≤ m2.timestamp)
            (getChatMessages cid' s') := by
    intro cid' s'
    refine ⟨List.perm_insertionSort msgLe _, List.sorted_insertionSort msgLe _, ?_⟩
    exact (List.sorted_insertionSort msgLe _).imp fun h => msgLe_timestamp h
  refine ⟨hgen, ?_⟩
  set mA : MsgDoc :=
    { docId := toString s.nextId, chatId := cid, senderId := sidA,
      senderName := snA, text := "a", timestamp := t1, seq := s.nextId } with hmA
  set mB : MsgDoc :=
    { docId := toString (s.nextId + 1), chatId := cid, senderId := sidB,
      senderName := snB, text := "b", timestamp := t2, seq := s.nextId + 1 }
    with hmB
  set s2 := (sendMessage (sendMessage s cid sidA snA "a" t1 tc1 false false).1
    cid sidB snB "b" t2 tc2 false false).1 with hs2
  have hmsgs : s2.messages = (s.messages ++ [mA]) ++ [mB] := rfl
  set L := getChatMessages cid s2 with hL
  have hperm : List.Perm L (s2.messages.filter fun m => m.chatId == cid) :=
    (hgen cid s2).1
  have hsorted : List.Sorted msgLe L := (hgen cid s2).2.1
  have hmemA : mA ∈ L := by
    refine hperm.mem_iff.mpr (List.mem_filter.mpr ⟨?_, ?_⟩)
    · rw [hmsgs]
      simp
    · simp [hmA]
  have hmemB : mB ∈ L := by
    refine hperm.mem_iff.mpr (List.mem_filter.mpr ⟨?_, ?_⟩)
    · rw [hmsgs]
      simp
    · simp [hmB]
  obtain ⟨i, hi, hiA⟩ := List.mem_iff_getElem.mp hmemA
  obtain ⟨j, hj, hjB⟩ := List.mem_iff_getElem.mp hmemB
  have hij : i < j := by
    rcases lt_trichotomy i j with h | h | h
    · exact h
    · exfalso
      subst h
      have hAB : mA = mB := hiA.symm.trans hjB
      have hseq := congrArg MsgDoc.seq hAB
      simp only [hmA, hmB] at hseq
      omega
    · exfalso
      have hrel : msgLe (L.get ⟨j, hj⟩) (L.get ⟨i, hi⟩) :=
        List.Sorted.rel_get_of_lt hsorted (by simpa using h)
      simp only [List.get_eq_getElem, hiA, hjB] at hrel
      unfold msgLe at hrel
      simp only [hmA, hmB] at hrel
      omega
  refine ⟨i, j, hij, ?_, ?_⟩
  · rw [List.getElem?_eq_getElem hi, hiA]
  · rw [List.getElem?_eq_getElem hj, hjB]

/-- C5 witness: the concrete run on an empty store delivers the `"a"`
message at an earlier position than the `"b"` message. -/
theorem getChatMessages_ordered_witness :
    ∃ i j : ℕ, i < j
      ∧ (getChatMessages "c"
          (sendMessage (sendMessage ⟨[], [], 0⟩ "c" "u" "U" "a" 1 1 false false).1
            "c" "v" "V" "b" 2 2 false false).1)[i]?
        = some { docId := toString 0, chatId := "c", senderId := "u",
                 senderName := "U", text := "a", timestamp := 1, seq := 0 }
      ∧ (getChatMessages "c"
          (sendMessage (sendMessage ⟨[], [], 0⟩ "c" "u" "U" "a" 1 1 false false).1
            "c" "v" "V" "b" 2 2 false false).1)[j]?
        = some { docId := toString (0 + 1), chatId := "c", senderId := "v",
                 senderName := "V", text := "b", timestamp := 2, seq := 0 + 1 } :=
  (getChatMessages_ordered ⟨[], [], 0⟩ "c" "u" "U" "v" "V" 1 1 2 2
    (by decide)).2

/-- The three notification kinds of the `NotificationButton` component. -/
inductive NType where
  | message
  | review
  | service
deriving DecidableEq

/-- A `Notification` of the `NotificationButton` component.  `sourceId` is
the originating document id carried in `data.chatId` / `data.reviewId`
(also embedded in the composed `id`). -/
structure Notification where
  id : String
  ntype : NType
  title : String
  message : String
  timestamp : ℕ
  read : Bool
  sourceId : String
deriving DecidableEq

/-- A `reviews/{reviewId}` document as read by the reviews listener. -/
structure ReviewDoc where
  docId : String
  providerId : String
  clientId : String
  clientName : String
  rating : ℕ
  comment : String
  createdAt : ℕ
deriving DecidableEq

/-- The message notifications built from one chats snapshot: one event per
conversation whose `lastMessage` and `lastMessageTime` are both truthy,
titled with the other participant's name (falling back to `"Usuário"`). -/
def mkMessageEvents (uid : String) (docs : List ChatDoc) : List Notification :=
  docs.filterMap fun d =>
    match d.lastMessageTime with
    | none => none
    | some t =>
      if d.lastMessage = "" then none
      else
        let other := d.participants.find? fun p => decide (p ≠ uid)
        let senderName :=
          jsStrOr (other.bind fun o =>
            (d.participantNames.find? fun kv => kv.1 == o).map fun kv => kv.2)
            "Usuário"
        some { id := "message-" ++ d.docId, ntype := NType.message,
               title := "Nova mensagem de " ++ senderName,
               message := d.lastMessage, timestamp := t, read := false,
               sourceId := d.docId }

/-- The review notifications built from one reviews snapshot: one event per
review document. -/
def mkReviewEvents (docs : List ReviewDoc) : List Notification :=
  docs.map fun d =>
    { id := "review-" ++ d.docId, ntype := NType.review,
      title := "Nova avaliação de " ++ d.clientName,
      message := toString d.rating ++ " estrelas: " ++ d.comment,
      timestamp := d.createdAt, read := false, sourceId := d.docId }

/-- The descending-timestamp comparison of
`sort((a, b) => b.timestamp.getTime() - a.timestamp.getTime())`. -/
def notifGe (a b : Notification) : Prop :=
  b.timestamp ≤ a.timestamp

instance : DecidableRel notifGe := fun a b =>
  inferInstanceAs (Decidable (_ ≤ _))

/-- The feed sort: newest first (stable, as JS `Array.prototype.sort`). -/
def sortNotifs (l : List Notification) : List Notification :=
  l.insertionSort notifGe

/-- The chats `onSnapshot` state update: drop every previously held
message-kind event, splice in the events of the fresh snapshot, and resort
by timestamp descending. -/
def applyChatsUpdate (uid : String) (docs : List ChatDoc)
    (prev : List Notification) : List Notification :=
  sortNotifs (mkMessageEvents uid docs ++
    prev.filter fun n => decide (n.ntype ≠ NType.message))

/-- The reviews `onSnapshot` state update: drop every previously held
review-kind event, splice in the events of the fresh snapshot, and resort
by timestamp descending. -/
def applyReviewsUpdate (docs : List ReviewDoc)
    (prev : List Notification) : List Notification :=
  sortNotifs (mkReviewEvents docs ++
    prev.filter fun n => decide (n.ntype ≠ NType.review))

/-- `unreadCount`: the number of events with `read = false`, recomputed
after every state change. -/
def unreadCount (l : List Notification) : ℕ :=
  (l.filter fun n => !n.read).length

/-- `markAsRead`: set `read` on the notification with the given id. -/
def markAsRead (notificationId : String) (l : List Notification) :
    List Notification :=
  l.map fun n => if n.id = notificationId then { n with read := true } else n

/-- `markAllAsRead`: set `read` on every notification. -/
def markAllAsRead (l : List Notification) : List Notification :=
  l.map fun n => { n with read := true }

/-- Every event built from a chats snapshot is message-kind and originates
from a snapshot document whose `lastMessage` and `lastMessageTime` are both
truthy, whose id it carries as `sourceId`. -/
lemma mkMessageEvents_mem {uid : String} {docs : List ChatDoc}
    {n : Notification} (hn : n ∈ mkMessageEvents uid docs) :
    n.ntype = NType.message ∧ ∃ d ∈ docs, n.sourceId = d.docId
      ∧ d.lastMessage ≠ "" ∧ d.lastMessageTime ≠ none := by
  obtain ⟨d, hd, hf⟩ := List.mem_filterMap.mp hn
  cases ht : d.lastMessageTime with
  | none => simp [mkMessageEvents, ht] at hf
  | some t =>
      by_cases hempty : d.lastMessage = ""
      · simp [mkMessageEvents, ht, hempty] at hf
      · simp only [mkMessageEvents, ht, hempty, if_false, reduceIte] at hf
        obtain rfl := (Option.some.inj hf).symm
        exact ⟨rfl, d, hd, rfl, hempty, by simp [ht]⟩

/-- Every event built from a reviews snapshot is review-kind and carries a
snapshot document's id and creation time. -/
lemma mkReviewEvents_mem {docs : List ReviewDoc} {n : Notification}
    (hn : n ∈ mkReviewEvents docs) :
    n.ntype = NType.review ∧ ∃ d ∈ docs, n.sourceId = d.docId
      ∧ n.timestamp = d.createdAt := by
  obtain ⟨d, hd, rfl⟩ := List.mem_map.mp hn
  exact ⟨rfl, d, hd, rfl, rfl⟩

/-- Filtering the resorted feed is filtering the unsorted union. -/
lemma filter_sortNotifs (l : List Notification) (p : Notification → Bool) :
    List.Perm ((sortNotifs l).filter p) (l.filter p) :=
  (List.perm_insertionSort notifGe l).filter p

/-- C2: each source update wholesale-replaces the events of its kind: the
message-kind slice of the feed after a chats update is exactly the fresh
snapshot's events, and likewise for reviews; hence after two successive
review updates the feed holds exactly one review event per document id of
the latest snapshot, and no review event for a source absent from it. -/
theorem notificationFeed_dedup :
    (∀ (uid : String) (docs : List ChatDoc) (prev : List Notification),
      List.Perm ((applyChatsUpdate uid docs prev).filter
          fun n => n.ntype == NType.message)
        (mkMessageEvents uid docs))
    ∧ (∀ (docs : List ReviewDoc) (prev : List Notification),
      List.Perm ((applyReviewsUpdate docs prev).filter
          fun n => n.ntype == NType.review)
        (mkReviewEvents docs))
    ∧ (∀ (sn1 sn2 : List ReviewDoc) (prev : List Notification),
        (sn2.map fun d => d.docId).Nodup → ∀ d ∈ sn2,
        ((applyReviewsUpdate sn2 (applyReviewsUpdate sn1 prev)).countP
          fun n => n.ntype == NType.review && n.sourceId == d.docId) = 1)
    ∧ (∀ (sn1 sn2 : List ReviewDoc) (prev : List Notification) (src : String),
        src ∉ sn2.map (fun d => d.docId) →
        ∀ n ∈ applyReviewsUpdate sn2 (applyReviewsUpdate sn1 prev),
          n.ntype = NType.review → n.sourceId ≠ src) := by
  have hmsg : ∀ (uid : String) (docs : List ChatDoc) (prev : List Notification),
      List.Perm ((applyChatsUpdate uid docs prev).filter
          fun n => n.ntype == NType.message)
        (mkMessageEvents uid docs) := by
    intro uid docs prev
    unfold applyChatsUpdate
    have h1 := filter_sortNotifs
      (mkMessageEvents uid docs ++
        prev.filter fun n => decide (n.ntype ≠ NType.message))
      (fun n => n.ntype == NType.message)
    rw [List.filter_append] at h1
    have h2 : (mkMessageEvents uid docs).filter
        (fun n => n.ntype == NType.message) = mkMessageEvents uid docs :=
      List.filter_eq_self.mpr fun n hn => by
        simp [(mkMessageEvents_mem hn).1]
    have h3 : ((prev.filter fun n => decide (n.ntype ≠ NType.message)).filter
        fun n => n.ntype == NType.message) = [] := by
      rw [List.filter_filter]
      exact List.filter_eq_nil_iff.mpr fun n _ => by
        cases h : n.ntype <;> simp [h]
    rw [h2, h3, List.append_nil] at h1
    exact h1
  have hrev : ∀ (docs : List ReviewDoc) (prev : List Notification),
      List.Perm ((applyReviewsUpdate docs prev).filter
          fun n => n.ntype == NType.review)
        (mkReviewEvents docs) := by
    intro docs prev
    unfold applyReviewsUpdate
    have h1 := filter_sortNotifs
      (mkReviewEvents docs ++
        prev.filter fun n => decide (n.ntype ≠ NType.review))
      (fun n => n.ntype == NType.review)
    rw [List.filter_append] at h1
    have h2 : (mkReviewEvents docs).filter
        (fun n => n.ntype == NType.review) = mkReviewEvents docs :=
      List.filter_eq_self.mpr fun n hn => by
        simp [(mkReviewEvents_mem hn).1]
    have h3 : ((prev.filter fun n => decide (n.ntype ≠ NType.review)).filter
        fun n => n.ntype == NType.review) = [] := by
      rw [List.filter_filter]
      exact List.filter_eq_nil_iff.mpr fun n _ => by
        cases h : n.ntype <;> simp [h]
    rw [h2, h3, List.append_nil] at h1
    exact h1
  refine ⟨hmsg, hrev, ?_, ?_⟩
  · intro sn1 sn2 prev hnodup d hd
    have hperm : List.Perm
        ((applyReviewsUpdate sn2 (applyReviewsUpdate sn1 prev)).filter
          fun n => n.ntype == NType.review)
        (mkReviewEvents sn2) := hrev sn2 _
    have hswap : ((applyReviewsUpdate sn2 (applyReviewsUpdate sn1 prev)).countP
          fun n => n.ntype == NType.review && n.sourceId == d.docId)
        = ((applyReviewsUpdate sn2 (applyReviewsUpdate sn1 prev)).countP
          fun n => n.sourceId == d.docId && n.ntype == NType.review) :=
      List.countP_congr fun x _ => by
        cases h1 : x.ntype == NType.review <;>
          cases h2 : x.sourceId == d.docId <;> simp [h1, h2]
    have hpull : (((applyReviewsUpdate sn2 (applyReviewsUpdate sn1 prev)).filter
          fun n => n.ntype == NType.review).countP
          fun n => n.sourceId == d.docId)
        = ((applyReviewsUpdate sn2 (applyReviewsUpdate sn1 prev)).countP
          fun n => n.sourceId == d.docId && n.ntype == NType.review) :=
      List.countP_filter _ _ _
    rw [hswap, ← hpull, hperm.countP_eq]
    rw [mkReviewEvents, List.countP_map]
    show (sn2.countP fun d' => d'.docId == d.docId) = 1
    have hstep : (sn2.countP fun d' => d'.docId == d.docId)
        = (sn2.map fun d' => d'.docId).countP (· == d.docId) := by
      rw [List.countP_map]
      rfl
    rw [hstep]
    have hmem : d.docId ∈ sn2.map fun d' => d'.docId :=
      List.mem_map.mpr ⟨d, hd, rfl⟩
    simpa [List.count] using List.count_eq_one_of_mem hnodup hmem
  · intro sn1 sn2 prev src hsrc n hn hkind heq
    have hn2 : n ∈ sortNotifs (mkReviewEvents sn2 ++
        (applyReviewsUpdate sn1 prev).filter
          fun m => decide (m.ntype ≠ NType.review)) := hn
    rw [sortNotifs, List.mem_insertionSort, List.mem_append] at hn2
    rcases hn2 with hn2 | hn2
    · obtain ⟨-, d, hd, hsid, -⟩ := mkReviewEvents_mem hn2
      exact hsrc (heq ▸ hsid ▸ List.mem_map.mpr ⟨d, hd, rfl⟩)
    · have := (List.mem_filter.mp hn2).2
      simp [hkind] at this

/-- C2 witness: two successive review snapshots carrying the same document
id `"r1"` leave exactly one review event for `"r1"` in the feed. -/
theorem notificationFeed_dedup_witness :
    ((applyReviewsUpdate
        [{ docId := "r1", providerId := "p", clientId := "c",
           clientName := "Ana", rating := 4, comment := "bom",
           createdAt := 20 }]
        (applyReviewsUpdate
          [{ docId := "r1", providerId := "p", clientId := "c",
             clientName := "Ana", rating := 5, comment := "otimo",
             createdAt := 10 }]
          [])).countP
      fun n => n.ntype == NType.review && n.sourceId == "r1") = 1 :=
  notificationFeed_dedup.2.2.1
    [{ docId := "r1", providerId := "p", clientId := "c", clientName := "Ana",
       rating := 5, comment := "otimo", createdAt := 10 }]
    [{ docId := "r1", providerId := "p", clientId := "c", clientName := "Ana",
       rating := 4, comment := "bom", createdAt := 20 }]
    [] (by decide)
    { docId := "r1", providerId := "p", clientId := "c", clientName := "Ana",
      rating := 4, comment := "bom", createdAt := 20 }
    (by decide)

/-- C8: `markAllAsRead` immediately drives the recomputed `unreadCount`
(the number of events with `read = false`) to `0`, for every feed state. -/
theorem markAllAsRead_unreadCount_zero (l : List Notification) :
    unreadCount (markAllAsRead l) = 0 := by
  unfold unreadCount markAllAsRead
  induction l with
  | nil => rfl
  | cons n t ih =>
      rw [List.map_cons, List.filter_cons]
      simp only [Bool.not_true, Bool.false_eq_true, if_false, reduceIte]
      exact ih

/-- `markAsRead` leaves a feed with no matching id unchanged. -/
lemma markAsRead_eq_of_no_match (nid : String) :
    ∀ l : List Notification, (∀ n ∈ l, n.id ≠ nid) → markAsRead nid l = l := by
  intro l
  induction l with
  | nil => intro _; rfl
  | cons n t ih =>
      intro h
      have hn : n.id ≠ nid := h n (List.mem_cons_self n t)
      have ht := ih fun m hm => h m (List.mem_cons_of_mem n hm)
      simp only [markAsRead, List.map_cons, if_neg hn] at ht ⊢
      rw [ht]

/-- C10: `markAsRead` is a frame-preserving update: it keeps the feed's
length and order, rewrites the notification whose id matches (only its
`read` flag — every other field is preserved), leaves every non-matching
notification untouched, and is the identity when no id matches. -/
theorem markAsRead_frame (l : List Notification) (nid : String) (i : ℕ) :
    (markAsRead nid l).length = l.length
    ∧ (markAsRead nid l)[i]?
        = (l[i]?).map (fun n => if n.id = nid then { n with read := true } else n)
    ∧ (∀ n, l[i]? = some n → n.id ≠ nid → (markAsRead nid l)[i]? = some n)
    ∧ (∀ n, l[i]? = some n → n.id = nid →
        (markAsRead nid l)[i]? = some { n with read := true })
    ∧ (∀ n n', l[i]? = some n → (markAsRead nid l)[i]? = some n' →
        n'.id = n.id ∧ n'.ntype = n.ntype ∧ n'.title = n.title
          ∧ n'.message = n.message ∧ n'.timestamp = n.timestamp
          ∧ n'.sourceId = n.sourceId)
    ∧ ((∀ n ∈ l, n.id ≠ nid) → markAsRead nid l = l) := by
  have hget : (markAsRead nid l)[i]?
      = (l[i]?).map (fun n => if n.id = nid then { n with read := true } else n) :=
    List.getElem?_map _ l i
  refine ⟨List.length_map l _, hget, ?_, ?_, ?_, markAsRead_eq_of_no_match nid l⟩
  · intro n hn hne
    rw [hget, hn]
    simp [if_neg hne]
  · intro n hn heq
    rw [hget, hn]
    simp [if_pos heq]
  · intro n n' hn hn'
    rw [hget, hn] at hn'
    have hn'' : n' = if n.id = nid then { n with read := true } else n :=
      (Option.some.inj hn').symm
    by_cases hid : n.id = nid
    · rw [hn'', if_pos hid]
      exact ⟨rfl, rfl, rfl, rfl, rfl, rfl⟩
    · rw [hn'', if_neg hid]
      exact ⟨rfl, rfl, rfl, rfl, rfl, rfl⟩

/-- C10 witness: on a concrete two-element feed, marking `"review-r1"` read
flips only that entry and preserves every other field and entry. -/
theorem markAsRead_frame_witness :
    (markAsRead "review-r1"
        [{ id := "review-r1", ntype := NType.review, title := "t1",
           message := "m1", timestamp := 3, read := false, sourceId := "r1" },
         { id := "message-c1", ntype := NType.message, title := "t2",
           message := "m2", timestamp := 2, read := false, sourceId := "c1" }])[0]?
      = some { id := "review-r1", ntype := NType.review, title := "t1",
               message := "m1", timestamp := 3, read := true, sourceId := "r1" } :=
  (markAsRead_frame
      [{ id := "review-r1", ntype := NType.review, title := "t1",
         message := "m1", timestamp := 3, read := false, sourceId := "r1" },
       { id := "message-c1", ntype := NType.message, title := "t2",
         message := "m2", timestamp := 2, read := false, sourceId := "c1" }]
      "review-r1" 0).2.2.2.1
    { id := "review-r1", ntype := NType.review, title := "t1",
      message := "m1", timestamp := 3, read := false, sourceId := "r1" }
    rfl rfl

/-- C9: the chats listener emits an event for a conversation only when its
`lastMessage` is non-empty and its `lastMessageTime` is present; a chat
freshly created by `createOrGetChat` has an empty `lastMessage` (a create
either leaves the store unchanged or appends exactly one such document), so
under distinct document ids no message-kind event carries the id of a
conversation whose `lastMessage` is empty or whose time is absent. -/
theorem freshChat_noMessageEvent :
    (∀ (s : Store) (a b na nb : String) (t : ℕ),
      (createOrGetChat s a b na nb t).2.chats = s.chats
      ∨ ∃ newDoc : ChatDoc,
          (createOrGetChat s a b na nb t).2.chats = s.chats ++ [newDoc]
          ∧ newDoc.lastMessage = ""
          ∧ (createOrGetChat s a b na nb t).1 = newDoc.docId)
    ∧ (∀ (uid : String) (docs : List ChatDoc) (n : Notification),
        n ∈ mkMessageEvents uid docs →
        ∃ d ∈ docs, n.sourceId = d.docId ∧ d.lastMessage ≠ ""
          ∧ d.lastMessageTime ≠ none)
    ∧ (∀ (uid : String) (docs : List ChatDoc) (d : ChatDoc),
        (docs.map fun x => x.docId).Nodup → d ∈ docs →
        (d.lastMessage = "" ∨ d.lastMessageTime = none) →
        ∀ n ∈ mkMessageEvents uid docs, n.sourceId ≠ d.docId) := by
  refine ⟨?_, ?_, ?_⟩
  · intro s a b na nb t
    cases hscan : scanChats b (s.chats.filter fun d => decide (a ∈ d.participants)) with
    | some cid =>
        left
        simp only [createOrGetChat, hscan]
    | none =>
        refine Or.inr ⟨{ docId := toString s.nextId
                         participants := [a, b]
                         participantNames := [(a, na), (b, nb)]
                         lastMessage := ""
                         lastMessageTime := some t
                         createdAt := t }, ?_, rfl, ?_⟩ <;>
          simp only [createOrGetChat, hscan]
  · intro uid docs n hn
    exact (mkMessageEvents_mem hn).2
  · intro uid docs d hnodup hd hfresh n hn heq
    obtain ⟨-, d', hd', hsid, hmsg', htime'⟩ := mkMessageEvents_mem hn
    have : d' = d :=
      List.inj_on_of_nodup_map hnodup hd' hd (heq ▸ hsid).symm
    subst this
    rcases hfresh with h | h
    · exact hmsg' h
    · exact htime' h

/-- C9 witness: a conversation with a sent message does generate an event,
and that event points at a document with non-empty `lastMessage` and a
present `lastMessageTime` — instantiating the only-when condition. -/
theorem freshChat_noMessageEvent_witness :
    ∃ d ∈ [({ docId := "c9", participants := ["u", "v"],
              participantNames := [("u", "U"), ("v", "V")],
              lastMessage := "oi", lastMessageTime := some 5,
              createdAt := 0 } : ChatDoc)],
      ("c9" : String) = d.docId ∧ d.lastMessage ≠ "" ∧ d.lastMessageTime ≠ none :=
  freshChat_noMessageEvent.2.1 "u"
    [{ docId := "c9", participants := ["u", "v"],
       participantNames := [("u", "U"), ("v", "V")],
       lastMessage := "oi", lastMessageTime := some 5, createdAt := 0 }]
    { id := "message-c9", ntype := NType.message,
      title := "Nova mensagem de V", message := "oi", timestamp := 5,
      read := false, sourceId := "c9" }
    (by decide)

end Servico
